import Mathlib

/-!
Shallow embedding of `dags/loan_data_processing.py`: a daily batch ETL DAG
that checks for a local CSV, optionally fetches it from S3, computes general
and per-grade aggregates, ensures a Postgres table exists, and appends one
summary row.  Definitions mirror the Python source; theorems settle the
specification claims.
-/

/-! ## Configuration constants (lines 21-24 of the source) -/

def AWS_S3_CONN_ID : String := "aws_default"

def SOURCE_S3_KEY : String := "data/raw-data/loan_data_small.csv"

def SOURCE_S3_BUCKET : String := "beranger-bucket-760254833251"

def DEST_PATH_FILE : String := "/opt/airflow/data/raw-data"

/-! ## Filesystem model

`os.path.exists` is modelled against an abstract filesystem: the list of
paths that currently exist. -/

abbrev FileSystem := List String

def osPathExists (fs : FileSystem) (p : String) : Bool :=
  fs.contains p

/-- `os.path.join(a, b)`: if `b` is absolute it wins; otherwise `a` and `b`
are joined with a single separator. -/
def osPathJoin (a b : String) : String :=
  match b.data with
  | '/' :: _ => b
  | _ =>
    match a.data.getLast? with
    | some '/' => a ++ b
    | _ => a ++ "/" ++ b

/-! ## Presence Checker (`_is_data_local`, wired with `datapath = DEST_PATH_FILE`) -/

/-- The boolean pushed to XCom by `_is_data_local`:
`os.path.exists(datapath)` with `datapath = DEST_PATH_FILE`. -/
def is_data_local_flag (fs : FileSystem) : Bool :=
  osPathExists fs DEST_PATH_FILE

/-- The path string the Presence Checker actually tests. -/
def presenceCheckedPath : String := DEST_PATH_FILE

/-- The dataset path both aggregator tasks are wired with:
`os.path.join(DEST_PATH_FILE, "loan_data_small.csv")` (source lines 122, 128). -/
def generalAggregatsDataPath : String :=
  osPathJoin DEST_PATH_FILE "loan_data_small.csv"

def loanAggregatsDataPath : String :=
  osPathJoin DEST_PATH_FILE "loan_data_small.csv"

/-! ## Branch Selector (`_branch`)

`ti.xcom_pull` can yield no value, modelled as `Option Bool`.  The Python
`if value is True:` selects the local branch only for exactly `True`;
every other value, including a missing one, falls to the `else`. -/

def branch (value : Option Bool) : String :=
  match value with
  | some true => "log_data_is_local"
  | _ => "log_data_is_remote"

/-! ## Relational store model

The store is a list of tables; Postgres guarantees at most one table per
name.  `CREATE TABLE IF NOT EXISTS` and `INSERT INTO` are embedded with
their standard semantics: the insert fails (returns `none`, the relation
does not exist) when no table has the target name. -/

structure Table where
  name : String
  schema : List (String × String)
  rows : List (List String)
deriving DecidableEq, Repr

abbrev Database := List Table

def hasTable (db : Database) (n : String) : Bool :=
  db.any (fun t => t.name == n)

/-- The column list declared by `create_aggregats_table_if_needed` (lines 135-144). -/
def aggregatsSchema : List (String × String) :=
  [("nb_lines", "numeric"), ("nb_cols", "numeric"), ("date_and_hour", "timestamp"),
   ("mean_loan_a", "numeric"), ("mean_loan_b", "numeric"),
   ("mean_loan_c", "numeric"), ("mean_loan_d", "numeric")]

def createTableIfNotExists (db : Database) (n : String)
    (schema : List (String × String)) : Database :=
  if hasTable db n then db else db ++ [⟨n, schema, []⟩]

def insertInto (db : Database) (n : String) (vals : List String) : Option Database :=
  if hasTable db n then
    some (db.map (fun t => if t.name == n then { t with rows := t.rows ++ [vals] } else t))
  else
    none

/-- Table name in the `CREATE TABLE IF NOT EXISTS` statement (line 135). -/
def createTargetTableName : String := "aggregats_loans_table"

/-- Table name in the `INSERT INTO` statement of `store_aggregats` (line 152). -/
def insertTargetTableName : String := "aggregats_loans_tabble"

/-- The ensure-schema task: `CREATE TABLE IF NOT EXISTS aggregats_loans_table (...)`. -/
def create_aggregats_table_if_needed (db : Database) : Database :=
  createTableIfNotExists db createTargetTableName aggregatsSchema

/-- The append task: `INSERT INTO aggregats_loans_tabble (...) VALUES (...)`. -/
def store_aggregats (db : Database) (vals : List String) : Option Database :=
  insertInto db insertTargetTableName vals

/-! ## General Aggregator (`_compute_general_aggregats`)

`pd.read_csv` on a well-formed CSV takes the first line as the header and
every further line as one data row; `df.shape` is `(data rows, columns)`.
A file is modelled as its lines, each already split into fields. -/

structure DataFrame where
  columns : List String
  rows : List (List String)
deriving DecidableEq, Repr

def read_csv (lines : List (List String)) : Option DataFrame :=
  match lines with
  | [] => none
  | h :: t => some ⟨h, t⟩

/-- `(nb_lines, nb_cols)` pushed by `_compute_general_aggregats`: `df.shape`. -/
def compute_general_aggregats (lines : List (List String)) : Option (Nat × Nat) :=
  (read_csv lines).map (fun df => (df.rows.length, df.columns.length))

/-! ## Domain Aggregator (`_compute_loan_aggregats`)

The pandasql query computes, for each grade in A..D, a scalar subquery
`SELECT AVG(loan_amount) FROM df WHERE grade = g`.  SQL `AVG` over an
empty set is `NULL`; otherwise it is sum divided by count.  A data row is
modelled by its two relevant fields. -/

structure LoanRow where
  grade : String
  loan_amount : Rat
deriving DecidableEq, Repr

/-- SQL `AVG`: `NULL` on the empty set, otherwise sum over count. -/
def sqlAvg (xs : List Rat) : Option Rat :=
  if xs.length = 0 then none
  else some ((xs.foldl (· + ·) 0) / (xs.length : Rat))

/-- The rows of `df` satisfying `WHERE grade = g`. -/
def matchingLoans (rows : List LoanRow) (g : String) : List LoanRow :=
  rows.filter (fun r => r.grade == g)

def avgLoanForGrade (rows : List LoanRow) (g : String) : Option Rat :=
  sqlAvg ((matchingLoans rows g).map LoanRow.loan_amount)

structure LoanAggregats where
  mean_loan_a : Option Rat
  mean_loan_b : Option Rat
  mean_loan_c : Option Rat
  mean_loan_d : Option Rat
deriving DecidableEq, Repr

def compute_loan_aggregats (rows : List LoanRow) : LoanAggregats :=
  ⟨avgLoanForGrade rows "A", avgLoanForGrade rows "B",
   avgLoanForGrade rows "C", avgLoanForGrade rows "D"⟩

/-- The Domain Aggregator's output for a named grade. -/
def loanAggregatFor (rows : List LoanRow) (g : String) : Option Rat :=
  if g == "A" then (compute_loan_aggregats rows).mean_loan_a
  else if g == "B" then (compute_loan_aggregats rows).mean_loan_b
  else if g == "C" then (compute_loan_aggregats rows).mean_loan_c
  else if g == "D" then (compute_loan_aggregats rows).mean_loan_d
  else none

/-- A row whose grade is one of the four tracked categories. -/
def gradeTracked (r : LoanRow) : Bool :=
  r.grade == "A" || r.grade == "B" || r.grade == "C" || r.grade == "D"

/-! ## DAG run model

Task statuses and trigger rules follow the wiring at lines 166-175:
`is_data_local >> branch >> [log_data_is_local, log_data_is_remote]`,
`log_data_is_remote >> extract_data_from_s3`,
`[log_data_is_local, extract_data_from_s3] >> compute_general_aggregats
 >> compute_loan_aggregats >> create_table >> store_aggregats`.
`compute_general_aggregats` carries `TriggerRule.NONE_FAILED_MIN_ONE_SUCCESS`;
all other downstream tasks use the default `all_success` rule.  The branch
operator skips the branch it did not return; the S3 download fails when the
remote object is missing. -/

inductive TaskStatus where
  | success
  | failed
  | skipped
  | upstreamFailed
deriving DecidableEq, Repr

def isFailureStatus : TaskStatus → Bool
  | .failed => true
  | .upstreamFailed => true
  | _ => false

/-- Default `all_success` trigger rule for a single upstream task. -/
def triggerAllSuccess (up : TaskStatus) : TaskStatus :=
  match up with
  | .success => .success
  | .skipped => .skipped
  | _ => .upstreamFailed

/-- `NONE_FAILED_MIN_ONE_SUCCESS`: run when no upstream failed and at least
one succeeded; skip when all upstreams were skipped. -/
def triggerNoneFailedMinOneSuccess (ups : List TaskStatus) : TaskStatus :=
  if ups.any isFailureStatus then .upstreamFailed
  else if ups.any (fun s => s == .success) then .success
  else .skipped

structure RunOutcome where
  is_data_local_st : TaskStatus
  branch_st : TaskStatus
  log_local_st : TaskStatus
  log_remote_st : TaskStatus
  extract_st : TaskStatus
  general_st : TaskStatus
  loan_st : TaskStatus
  create_st : TaskStatus
  store_st : TaskStatus
deriving DecidableEq, Repr

/-- One run of the DAG, parameterised by the filesystem at check time and
whether the remote S3 object exists. -/
def runPipeline (fs : FileSystem) (remoteExists : Bool) : RunOutcome :=
  let flag := is_data_local_flag fs
  let chosen := branch (some flag)
  let logLocal : TaskStatus := if chosen == "log_data_is_local" then .success else .skipped
  let logRemote : TaskStatus := if chosen == "log_data_is_remote" then .success else .skipped
  let extract : TaskStatus :=
    match logRemote with
    | .success => if remoteExists then .success else .failed
    | .skipped => .skipped
    | other => triggerAllSuccess other
  let general := triggerNoneFailedMinOneSuccess [logLocal, extract]
  let loan := triggerAllSuccess general
  let create := triggerAllSuccess loan
  let store := triggerAllSuccess create
  ⟨.success, .success, logLocal, logRemote, extract, general, loan, create, store⟩

/-- A run is failed when some task failed or was cascaded a failure. -/
def dagFailed (o : RunOutcome) : Bool :=
  isFailureStatus o.is_data_local_st || isFailureStatus o.branch_st ||
  isFailureStatus o.log_local_st || isFailureStatus o.log_remote_st ||
  isFailureStatus o.extract_st || isFailureStatus o.general_st ||
  isFailureStatus o.loan_st || isFailureStatus o.create_st ||
  isFailureStatus o.store_st

/-- The store after a run: the insert statement executes only when the
`store_aggregats` task actually ran. -/
def dbAfterRun (o : RunOutcome) (db : Database) (vals : List String) : Option Database :=
  if o.store_st == .success then store_aggregats db vals else some db

/-! ## Claim theorems -/

/-- C1: the claim says the insert statement of the Persistence Writer targets
exactly the table created by the ensure-schema step.  The code violates it:
the `CREATE` statement names `aggregats_loans_table` while the `INSERT`
statement names `aggregats_loans_tabble`, so on a fresh store the ensured
table exists and the insert still fails (relation does not exist) and the
ensured table stays empty. -/
theorem c1_insert_create_table_name_mismatch :
    insertTargetTableName ≠ createTargetTableName
    ∧ hasTable (create_aggregats_table_if_needed []) createTargetTableName = true
    ∧ store_aggregats (create_aggregats_table_if_needed [])
        ["100", "5", "2023-01-01", "1000", "0", "0", "0"] = none := by
  refine ⟨by decide, by decide, ?_⟩
  decide

/-- C2: for every value of the presence flag the Branch Selector returns
exactly one of the two branch task ids — `true` selects the local branch and
`false` the remote one — and in the corresponding run exactly one of the two
branch tasks runs while the other is skipped. -/
theorem c2_branch_exclusive (flag : Bool) (fs : FileSystem) (r : Bool)
    (hfs : is_data_local_flag fs = flag) :
    ((branch (some flag) = "log_data_is_local") ↔ flag = true)
    ∧ ((branch (some flag) = "log_data_is_remote") ↔ flag = false)
    ∧ ¬ (branch (some flag) = "log_data_is_local"
          ∧ branch (some flag) = "log_data_is_remote")
    ∧ (if flag then
        (runPipeline fs r).log_local_st = .success
          ∧ (runPipeline fs r).log_remote_st = .skipped
       else
        (runPipeline fs r).log_local_st = .skipped
          ∧ (runPipeline fs r).log_remote_st = .success) := by
  cases flag <;>
    simp_all [branch, runPipeline, is_data_local_flag]

/-- C2 witness: with the configured directory present the flag is `true`,
the selector returns the local branch, and only the local log task runs. -/
theorem c2_branch_exclusive_witness :
    (branch (some true) = "log_data_is_local") ↔ true = true := by
  exact (c2_branch_exclusive true [DEST_PATH_FILE] true (by decide)).1

/-- C3 counterexample: the claim says a missing presence flag makes the
Branch Selector fail the run with a configuration error; in the code the
`else` of `if value is True` catches a missing pull and the selector simply
returns the remote branch id. -/
theorem c3_missing_flag_not_fatal :
    branch none = "log_data_is_remote" := by
  decide

/-- C3 amended: for every pulled value that is not exactly the boolean
`true` — including a missing value — the Branch Selector proceeds down the
remote branch; it never raises a configuration error. -/
theorem c3_amended_missing_flag_goes_remote (v : Option Bool)
    (hv : v ≠ some true) :
    branch v = "log_data_is_remote" := by
  match v with
  | none => rfl
  | some true => exact absurd rfl hv
  | some false => rfl

/-- C3 amended witness: a missing flag selects the remote branch. -/
theorem c3_amended_witness :
    branch none = "log_data_is_remote" ∧ (none : Option Bool) ≠ some true :=
  ⟨c3_amended_missing_flag_goes_remote none (by decide), by decide⟩

/-- C4 counterexample: the claim says the Presence Checker's boolean is true
only when the CSV consumed by the aggregators exists.  The checker tests
`DEST_PATH_FILE` (the raw-data directory), not the CSV path: on a filesystem
where the directory exists and the CSV does not, the flag is still `true`. -/
theorem c4_flag_true_without_csv :
    is_data_local_flag [DEST_PATH_FILE] = true
    ∧ osPathExists [DEST_PATH_FILE] generalAggregatsDataPath = false := by
  constructor <;> decide

/-- C4 amended: the Presence Checker's boolean is true iff the
pre-configured path `DEST_PATH_FILE` exists; that path is the parent
directory of the dataset CSV, distinct from the CSV path the aggregators
read, so the flag may be true while the CSV file itself is absent. -/
theorem c4_amended_checker_tests_directory :
    (∀ fs : FileSystem, is_data_local_flag fs = osPathExists fs presenceCheckedPath)
    ∧ presenceCheckedPath ≠ generalAggregatsDataPath
    ∧ (∃ fs : FileSystem, is_data_local_flag fs = true
        ∧ osPathExists fs generalAggregatsDataPath = false) := by
  refine ⟨fun fs => rfl, by decide, ⟨[DEST_PATH_FILE], by decide, by decide⟩⟩

/-- C10: the two aggregator tasks are wired with the identical, constant
dataset path — the destination directory joined with `loan_data_small.csv` —
and this path strictly extends (and differs from) the path the Presence
Checker tests. -/
theorem c10_aggregation_path_shared_and_extends_checked_path :
    generalAggregatsDataPath = loanAggregatsDataPath
    ∧ generalAggregatsDataPath = DEST_PATH_FILE ++ "/" ++ "loan_data_small.csv"
    ∧ (∃ s : String, s ≠ "" ∧ generalAggregatsDataPath = presenceCheckedPath ++ s)
    ∧ generalAggregatsDataPath ≠ presenceCheckedPath := by
  refine ⟨rfl, by decide, ⟨"/loan_data_small.csv", by decide, by decide⟩, by decide⟩

/-- C5: for every file parseable as the expected tabular format (at least a
header line), the General Aggregator returns the number of data lines
excluding the header as `row_count` and the number of declared fields (the
header's length) as `col_count`. -/
theorem c5_general_aggregats_shape (lines : List (List String))
    (h : lines ≠ []) :
    compute_general_aggregats lines
      = some (lines.length - 1, (lines.headD []).length) := by
  match lines with
  | [] => exact absurd rfl h
  | hd :: tl => simp [compute_general_aggregats, read_csv]

/-- C5 witness: a file with a two-field header and three data lines yields
`(3, 2)`. -/
theorem c5_general_aggregats_shape_witness :
    compute_general_aggregats
        [["grade", "loan_amount"], ["A", "10"], ["B", "20"], ["A", "30"]]
      = some (3, 2) :=
  c5_general_aggregats_shape
    [["grade", "loan_amount"], ["A", "10"], ["B", "20"], ["A", "30"]] (by decide)

/-- C6: for every dataset and tracked grade, if some row has that grade the
Domain Aggregator's output is the arithmetic mean of `loan_amount` over
exactly the matching rows; with no matching row the output is `none` (SQL
`NULL`) and never the number `0`. -/
theorem c6_domain_mean_per_grade (rows : List LoanRow) (g : String)
    (hg : g = "A" ∨ g = "B" ∨ g = "C" ∨ g = "D") :
    (matchingLoans rows g ≠ [] →
      loanAggregatFor rows g
        = some (((matchingLoans rows g).map LoanRow.loan_amount).sum
                  / ((matchingLoans rows g).length : Rat)))
    ∧ (matchingLoans rows g = [] →
        loanAggregatFor rows g = none ∧ loanAggregatFor rows g ≠ some 0) := by
  have hsel : loanAggregatFor rows g = avgLoanForGrade rows g := by
    rcases hg with h | h | h | h <;> subst h <;>
      simp [loanAggregatFor, compute_loan_aggregats]
  rw [hsel]
  constructor
  · intro hne
    have hlen : ((matchingLoans rows g).map LoanRow.loan_amount).length ≠ 0 := by
      simpa using fun hnil => hne (List.eq_nil_of_length_eq_zero (by simpa using hnil))
    simp only [avgLoanForGrade, sqlAvg, hlen, if_neg hlen, ← List.sum_eq_foldl]
    simp [matchingLoans]
  · intro hnil
    simp [avgLoanForGrade, sqlAvg, hnil]

/-- C6 witness: two grade-A rows of 4 and 6 average to 5; grade D, with no
matching rows, yields `none`. -/
theorem c6_domain_mean_per_grade_witness :
    loanAggregatFor [⟨"A", 4⟩, ⟨"A", 6⟩] "A" = some 5
    ∧ loanAggregatFor [⟨"A", 4⟩, ⟨"A", 6⟩] "D" = none := by
  constructor
  · have h := (c6_domain_mean_per_grade [⟨"A", 4⟩, ⟨"A", 6⟩] "A"
      (Or.inl rfl)).1 (by decide)
    rw [h]
    norm_num [matchingLoans]
  · exact ((c6_domain_mean_per_grade [⟨"A", 4⟩, ⟨"A", 6⟩] "D"
      (by simp)).2 (by decide)).1

lemma filter_grade_through_tracked (rows : List LoanRow) (g : String)
    (hg : g = "A" ∨ g = "B" ∨ g = "C" ∨ g = "D") :
    rows.filter (fun r => r.grade == g)
      = (rows.filter gradeTracked).filter (fun r => r.grade == g) := by
  induction rows with
  | nil => rfl
  | cons r rs ih =>
    by_cases h : r.grade = g
    · have ht : gradeTracked r = true := by
        rcases hg with h4 | h4 | h4 | h4 <;> subst h4 <;> simp [gradeTracked, h]
      simp [List.filter_cons, h, ht, ih]
    · by_cases ht : gradeTracked r = true <;>
        simp [List.filter_cons, h, ht, ih]

/-- C7: rows whose grade is outside {A,B,C,D} contribute to none of the four
per-grade means: any two datasets with the same tracked rows — in particular
a dataset before and after adding or removing rows with untracked grades —
produce identical Domain Aggregator output. -/
theorem c7_untracked_grades_ignored (rows₁ rows₂ : List LoanRow)
    (h : rows₁.filter gradeTracked = rows₂.filter gradeTracked) :
    compute_loan_aggregats rows₁ = compute_loan_aggregats rows₂ := by
  have key : ∀ g, (g = "A" ∨ g = "B" ∨ g = "C" ∨ g = "D") →
      avgLoanForGrade rows₁ g = avgLoanForGrade rows₂ g := by
    intro g hg
    unfold avgLoanForGrade matchingLoans
    rw [filter_grade_through_tracked rows₁ g hg,
        filter_grade_through_tracked rows₂ g hg, h]
  simp only [compute_loan_aggregats]
  rw [key "A" (Or.inl rfl), key "B" (Or.inr (Or.inl rfl)),
      key "C" (Or.inr (Or.inr (Or.inl rfl))),
      key "D" (Or.inr (Or.inr (Or.inr rfl)))]

/-- C7 witness: adding a grade-E row leaves all four means unchanged. -/
theorem c7_untracked_grades_ignored_witness :
    compute_loan_aggregats [⟨"A", 2⟩, ⟨"E", 100⟩]
      = compute_loan_aggregats [⟨"A", 2⟩] :=
  c7_untracked_grades_ignored [⟨"A", 2⟩, ⟨"E", 100⟩] [⟨"A", 2⟩] (by decide)

/-- C8: the ensure-schema step is idempotent — running it twice equals
running it once, running it any positive number of times equals running it
once, running it when the table already exists changes nothing (the existing
table and its rows are untouched), and running it when the table is absent
leaves the store with exactly one table of that name carrying the declared
seven-column schema. -/
theorem c8_ensure_schema_idempotent (db : Database) :
    create_aggregats_table_if_needed (create_aggregats_table_if_needed db)
      = create_aggregats_table_if_needed db
    ∧ (∀ k : Nat, create_aggregats_table_if_needed^[k + 1] db
        = create_aggregats_table_if_needed db)
    ∧ (hasTable db createTargetTableName = true →
        create_aggregats_table_if_needed db = db)
    ∧ (hasTable db createTargetTableName = false →
        (create_aggregats_table_if_needed db).filter
            (fun t => t.name == createTargetTableName)
          = [⟨createTargetTableName, aggregatsSchema, []⟩]) := by
  have hid : create_aggregats_table_if_needed (create_aggregats_table_if_needed db)
      = create_aggregats_table_if_needed db := by
    by_cases hdb : hasTable db createTargetTableName = true
    · simp [create_aggregats_table_if_needed, createTableIfNotExists, hdb]
    · have h2 : hasTable (db ++ [⟨createTargetTableName, aggregatsSchema, []⟩])
          createTargetTableName = true := by
        simp [hasTable]
      simp [create_aggregats_table_if_needed, createTableIfNotExists, hdb, h2]
  refine ⟨hid, ?_, ?_, ?_⟩
  · intro k
    induction k with
    | zero => simp
    | succ n ih => rw [Function.iterate_succ_apply', ih, hid]
  · intro hdb
    simp [create_aggregats_table_if_needed, createTableIfNotExists, hdb]
  · intro hdb
    have hnil : db.filter (fun t => t.name == createTargetTableName) = [] := by
      rw [List.filter_eq_nil_iff]
      intro t ht
      have := (List.any_eq_false).mp hdb t ht
      simpa using this
    simp [create_aggregats_table_if_needed, createTableIfNotExists, hdb,
          List.filter_append, hnil]

/-- C8 witness: on the empty store, running twice equals running once; the
result holds exactly one `aggregats_loans_table` with the declared schema;
and a store already holding the table is left unchanged. -/
theorem c8_ensure_schema_idempotent_witness :
    create_aggregats_table_if_needed (create_aggregats_table_if_needed [])
      = create_aggregats_table_if_needed []
    ∧ (create_aggregats_table_if_needed []).filter
        (fun t => t.name == createTargetTableName)
      = [⟨createTargetTableName, aggregatsSchema, []⟩]
    ∧ create_aggregats_table_if_needed
        [⟨createTargetTableName, aggregatsSchema, [["1"]]⟩]
      = [⟨createTargetTableName, aggregatsSchema, [["1"]]⟩] :=
  ⟨(c8_ensure_schema_idempotent []).1,
   (c8_ensure_schema_idempotent []).2.2.2 rfl,
   (c8_ensure_schema_idempotent
      [⟨createTargetTableName, aggregatsSchema, [["1"]]⟩]).2.2.1 (by decide)⟩

/-- C9: when the presence flag is false (local file absent) and the remote
object is missing, the S3 extract task fails, both aggregators and the
persistence tasks are cascaded an upstream failure and never execute, the
run is failed, and the store is left unchanged — no row is inserted. -/
theorem c9_fetch_failure_stops_run (fs : FileSystem) (r : Bool)
    (db : Database) (vals : List String)
    (hlocal : is_data_local_flag fs = false) (hremote : r = false) :
    (runPipeline fs r).extract_st = .failed
    ∧ (runPipeline fs r).general_st = .upstreamFailed
    ∧ (runPipeline fs r).loan_st = .upstreamFailed
    ∧ (runPipeline fs r).create_st = .upstreamFailed
    ∧ (runPipeline fs r).store_st = .upstreamFailed
    ∧ dagFailed (runPipeline fs r) = true
    ∧ dbAfterRun (runPipeline fs r) db vals = some db := by
  subst hremote
  have hrun : runPipeline fs false
      = ⟨.success, .success, .skipped, .success, .failed, .upstreamFailed,
         .upstreamFailed, .upstreamFailed, .upstreamFailed⟩ := by
    simp [runPipeline, hlocal, branch, triggerNoneFailedMinOneSuccess,
          triggerAllSuccess, isFailureStatus]
  rw [hrun]
  simp [dagFailed, dbAfterRun, isFailureStatus]

/-- C9 witness: on the empty filesystem with the remote object missing, the
run fails at the fetch and the empty store stays empty. -/
theorem c9_fetch_failure_stops_run_witness :
    (runPipeline [] false).extract_st = .failed
    ∧ dbAfterRun (runPipeline [] false) [] [] = some [] := by
  have h := c9_fetch_failure_stops_run [] false [] [] (by decide) rfl
  exact ⟨h.1, h.2.2.2.2.2.2⟩
